import Mathlib

/-!
Verification of the otaku-news backend (Express + Supabase) against its
natural-language specification.  The relevant parts of `src/server.js` and
`src/scripts/fetch-youtube-trending.js` are shallowly embedded below: the
hosted store is a record of lists, each request handler is a function from
a request body and a store to an HTTP status plus the updated store, and
JavaScript truthiness of optional string/array fields is modelled
explicitly with `Option`.
-/

namespace OtakuNews

/-- JavaScript truthiness for an optional string field of a JSON body:
`undefined`/`null` and the empty string are falsy. -/
def truthyStr : Option String → Bool
  | none => false
  | some s => !(s == "")

/-- `x || d` for an optional string, as used for the `user_name` and
`user_avatar` defaults: falsy (absent or empty) falls back to `d`. -/
def jsOrStr (x : Option String) (d : String) : String :=
  match x with
  | none => d
  | some s => if s == "" then d else s

/-- Supabase `.single()`: yields the row when the query matched exactly one
row, and `null` data otherwise (zero rows or multiple rows both produce an
error object and null data, and the handlers that destructure only `data`
see `null`). -/
def single? {α : Type} : List α → Option α
  | [x] => some x
  | _ => none

/-- An `articles` row, with the columns the embedded handlers touch.
`comment_count` is nullable in the store, hence `Option Nat`. -/
structure Article where
  id : String
  title : String
  category : String
  comment_count : Option Nat
  view_count : Nat
  is_trending : Bool
  is_fire : Bool
  published_at : Nat
  deriving Repr, DecidableEq

/-- A `comments` row as inserted by `POST /api/comments`. -/
structure Comment where
  article_id : String
  user_name : String
  user_avatar : String
  text : String
  deriving Repr, DecidableEq

/-- A `user_preferences` row.  `last_visit` is nullable: the insert path of
the upsert handler never sets it. -/
structure UserPref where
  user_id : String
  favorite_categories : List String
  viewed_articles : List String
  last_visit : Option String
  deriving Repr, DecidableEq

/-- The hosted store, restricted to the collections the claims touch. -/
structure Store where
  articles : List Article
  comments : List Comment
  user_preferences : List UserPref
  deriving Repr, DecidableEq

/-- Body of `POST /api/comments`; every field may be absent. -/
structure CommentBody where
  article_id : Option String
  user_name : Option String
  user_avatar : Option String
  text : Option String
  deriving Repr, DecidableEq

/-- `POST /api/comments` (server.js lines 130-172): validate
`article_id`/`text` (400 and no mutation on falsy), insert the comment with
anonymous defaults, read the article's `comment_count` via `.single()`, then
write back `(article?.comment_count || 0) + 1` to every row whose id
matches. -/
def postComment (s : Store) (body : CommentBody) : Nat × Store :=
  if !truthyStr body.article_id || !truthyStr body.text then
    (400, s)
  else
    let aid := body.article_id.getD ""
    let newComment : Comment :=
      { article_id := aid
        user_name := jsOrStr body.user_name "匿名"
        user_avatar := jsOrStr body.user_avatar "😊"
        text := body.text.getD "" }
    let s1 := { s with comments := s.comments ++ [newComment] }
    let article := single? (s1.articles.filter (fun a => a.id == aid))
    let newCount := (article.bind (fun a => a.comment_count)).getD 0 + 1
    let s2 := { s1 with
      articles := s1.articles.map (fun a =>
        if a.id == aid then { a with comment_count := some newCount } else a) }
    (200, s2)

/-- Insert `a` into a list sorted descending by `key`, keeping it sorted. -/
def insertByDesc {α : Type} (key : α → Nat) (a : α) : List α → List α
  | [] => [a]
  | b :: l => if key b ≤ key a then a :: b :: l else b :: insertByDesc key a l

/-- Sort a list in descending order of `key` (insertion sort). -/
def sortByDesc {α : Type} (key : α → Nat) (l : List α) : List α :=
  l.foldr (insertByDesc key) []

/-- Sort articles by `published_at` in descending order, as the Supabase
query `order('published_at', { ascending: false })` does. -/
def orderByPublishedDesc (l : List Article) : List Article :=
  sortByDesc (fun a => a.published_at) l

/-- Query of `GET /api/articles`: optional category filter and
offset/limit pagination (defaults 0 and 20). -/
structure ArticlesQuery where
  category : Option String
  limit : Nat
  offset : Nat
  deriving Repr, DecidableEq

/-- `GET /api/articles` (server.js lines 27-50): select all articles,
apply the `eq('category', category)` filter when `category` is truthy and
not the sentinel `'all'`, order by `published_at` descending, and take the
requested range.  Returns the response `data`. -/
def listArticles (s : Store) (q : ArticlesQuery) : List Article :=
  let base :=
    if truthyStr q.category && !(q.category.getD "" == "all") then
      s.articles.filter (fun a => a.category == q.category.getD "")
    else
      s.articles
  ((orderByPublishedDesc base).drop q.offset).take q.limit

/-- Body of `POST /api/recommendations/articles`.  A missing
`viewed_articles` defaults to `[]` by destructuring. -/
structure RecommendBody where
  user_id : Option String
  categories : Option (List String)
  viewed_articles : Option (List String)
  deriving Repr, DecidableEq

/-- `POST /api/recommendations/articles` (server.js lines 204-234): select
articles ordered by `published_at` descending with limit 10, optionally
restricted by `in('category', categories)` when the list is present and
non-empty, then drop every article whose id is in `viewed_articles`
client-side.  Returns the response `data`. -/
def recommendArticles (s : Store) (body : RecommendBody) : List Article :=
  let viewed := body.viewed_articles.getD []
  let base :=
    match body.categories with
    | some cats =>
        if cats.length > 0 then
          s.articles.filter (fun a => cats.contains a.category)
        else s.articles
    | none => s.articles
  let data := (orderByPublishedDesc base).take 10
  data.filter (fun a => !(viewed.contains a.id))

/-- Body of `POST /api/user-preferences`; list fields are absent (`none`)
when omitted from the JSON body. -/
structure PrefBody where
  user_id : Option String
  favorite_categories : Option (List String)
  viewed_articles : Option (List String)
  deriving Repr, DecidableEq

/-- `POST /api/user-preferences` (server.js lines 286-342): 400 when
`user_id` is falsy; otherwise read the existing row via `.single()`.  If a
row exists, update every row of that `user_id`, merging present body
fields over the existing values (`x || existing.x`, where a present array
is always truthy) and setting `last_visit` to the current time; if none
exists, insert a fresh row without any `last_visit`.  `now` is
`new Date().toISOString()` at the time of the request. -/
def upsertPreferences (s : Store) (body : PrefBody) (now : String) :
    Nat × Store :=
  if !truthyStr body.user_id then
    (400, s)
  else
    let uid := body.user_id.getD ""
    match single? (s.user_preferences.filter (fun p => p.user_id == uid)) with
    | some existing =>
        let newFav := body.favorite_categories.getD existing.favorite_categories
        let newViewed := body.viewed_articles.getD existing.viewed_articles
        (200, { s with
          user_preferences := s.user_preferences.map (fun p =>
            if p.user_id == uid then
              { p with
                favorite_categories := newFav
                viewed_articles := newViewed
                last_visit := some now }
            else p) })
    | none =>
        (200, { s with
          user_preferences := s.user_preferences ++
            [{ user_id := uid
               favorite_categories := body.favorite_categories.getD []
               viewed_articles := body.viewed_articles.getD []
               last_visit := none }] })

/-! ### Ingestion script (`src/scripts/fetch-youtube-trending.js`) -/

/-- Outcome of one `fetch` + `response.json()` round trip against the video
platform, as seen by the client functions: the fetch or JSON decoding threw
(transport error), the decoded body carried a `data.error` object, or it
succeeded with an optional `items` array. -/
inductive FetchResult (α : Type) where
  | transportError (msg : String)
  | apiError (msg : String)
  | success (items : Option (List α))
  deriving Repr, DecidableEq

/-- A video search result item: `id.videoId` plus the `snippet` fields the
synthesizer reads. -/
structure Video where
  videoId : String
  title : String
  description : String
  thumbnailHigh : Option String
  thumbnailDefault : Option String
  deriving Repr, DecidableEq

/-- A top-level comment thread item
(`snippet.topLevelComment.snippet` fields used by the synthesizer). -/
structure YTComment where
  textDisplay : String
  authorDisplayName : String
  deriving Repr, DecidableEq

/-- `searchTrendingVideos` (fetch-youtube-trending.js lines 15-31): inside
the `try`, a `data.error` is raised and immediately caught, so both the
transport-error and API-error paths land in the `catch` and return `[]`;
on success it returns `data.items || []`. -/
def searchTrendingVideos (resp : FetchResult Video) : List Video :=
  match resp with
  | .transportError _ => []
  | .apiError _ => []
  | .success items => items.getD []

/-- `getVideoComments` (fetch-youtube-trending.js lines 34-51): a
`data.error` is logged and `[]` returned directly; a transport error is
caught and `[]` returned; on success it returns `data.items || []`. -/
def getVideoComments (resp : FetchResult YTComment) : List YTComment :=
  match resp with
  | .transportError _ => []
  | .apiError _ => []
  | .success items => items.getD []

/-- The article record built by `createArticleFromVideo`
(fetch-youtube-trending.js lines 54-106) before insertion. -/
structure ArticleData where
  title : String
  content : String
  excerpt : String
  category : String
  source_url : String
  image_url : Option String
  is_trending : Bool
  is_fire : Bool
  reaction_count : Nat
  comment_count : Nat
  view_count : Nat
  published_at : String
  deriving Repr, DecidableEq

/-- Rendering of one comment line inside the 視聴者の反応 section. -/
def renderComment (c : YTComment) : String :=
  "**" ++ c.authorDisplayName ++ "**: " ++ c.textDisplay ++ "\n\n"

/-- `createArticleFromVideo` (fetch-youtube-trending.js lines 54-106) as a
pure function: the two `Math.random()` placeholder metrics and
`new Date().toISOString()` are passed in as `randReaction`, `randView` and
`now`.  `is_fire` is `comments.length > 50`; `comment_count` is the full
comment list length; at most 10 comments are rendered into the body. -/
def createArticleFromVideo (video : Video) (comments : List YTComment)
    (category : String) (randReaction randView : Nat) (now : String) :
    ArticleData :=
  let title := "【話題】" ++ video.title
  let commentText :=
    if comments.length > 0 then
      "\n\n## 視聴者の反応\n\n" ++
        String.join ((comments.take 10).map renderComment)
    else
      "\n\n視聴者のコメントはまだありません。"
  let content :=
    "YouTubeで話題の動画「" ++ video.title ++ "」が注目を集めています。\n\n" ++
      (video.description.take 200) ++ "...\n" ++ commentText ++
      "\n\n動画リンク: https://www.youtube.com/watch?v=" ++ video.videoId
  { title := title
    content := content
    excerpt :=
      if video.description.take 150 == "" then "話題の動画をチェック!"
      else video.description.take 150
    category := category
    source_url := "https://www.youtube.com/watch?v=" ++ video.videoId
    image_url := video.thumbnailHigh <|> video.thumbnailDefault
    is_trending := true
    is_fire := decide (comments.length > 50)
    reaction_count := randReaction
    comment_count := comments.length
    view_count := randView
    published_at := now }

/-- `main` requests at most this many comments per video
(`getVideoComments(videoId, 20)`, fetch-youtube-trending.js line 135). -/
def mainCommentMaxResults : Nat := 20

/-- The platform honours a `maxResults` bound of `n`: a successful response
carries at most `n` items.  The platform API is a fixed external
collaborator; this is its documented contract for `maxResults`. -/
def honorsMaxResults {α : Type} (resp : FetchResult α) (n : Nat) : Prop :=
  ∀ items, resp = FetchResult.success (some items) → items.length ≤ n

/-- The per-video step of `main` (fetch-youtube-trending.js lines 128-147):
fetch comments with `maxResults = 20` and synthesize the article from
them. -/
def ingestVideo (video : Video) (commentsResp : FetchResult YTComment)
    (category : String) (randReaction randView : Nat) (now : String) :
    ArticleData :=
  createArticleFromVideo video (getVideoComments commentsResp) category
    randReaction randView now

/-! ### Sample data used to instantiate the theorems on concrete inputs -/

/-- A sample stored article with a null `comment_count`. -/
def sampleArticle1 : Article :=
  { id := "a1", title := "t1", category := "anime", comment_count := none,
    view_count := 3, is_trending := false, is_fire := false,
    published_at := 10 }

/-- A second sample stored article, in a different category. -/
def sampleArticle2 : Article :=
  { id := "a2", title := "t2", category := "game", comment_count := some 4,
    view_count := 7, is_trending := true, is_fire := false,
    published_at := 5 }

/-- A sample store holding both sample articles. -/
def sampleStore : Store :=
  { articles := [sampleArticle1, sampleArticle2], comments := [],
    user_preferences := [] }

/-- A sample video search result. -/
def sampleVideo : Video :=
  { videoId := "v1", title := "凄い動画", description := "説明",
    thumbnailHigh := some "https://example.test/hi.jpg",
    thumbnailDefault := none }

/-! ### General lemmas about the embedding's building blocks -/

lemma mem_insertByDesc {α : Type} (key : α → Nat) (a x : α) (l : List α) :
    x ∈ insertByDesc key a l ↔ x = a ∨ x ∈ l := by
  induction l with
  | nil => simp [insertByDesc]
  | cons b l ih =>
    simp only [insertByDesc]
    split
    · simp [List.mem_cons]
    · simp only [List.mem_cons, ih]
      tauto

lemma mem_sortByDesc {α : Type} (key : α → Nat) (x : α) (l : List α) :
    x ∈ sortByDesc key l ↔ x ∈ l := by
  induction l with
  | nil => simp [sortByDesc]
  | cons b l ih =>
    simp only [sortByDesc, List.foldr] at ih ⊢
    rw [mem_insertByDesc]
    simp [ih]

lemma filter_map_comm {α : Type} (f : α → α) (p : α → Bool)
    (h : ∀ a, p (f a) = p a) (l : List α) :
    (l.map f).filter p = (l.filter p).map f := by
  induction l with
  | nil => rfl
  | cons a l ih =>
    simp only [List.map_cons, List.filter_cons, h a]
    cases hp : p a <;> simp [ih]

lemma filter_update_singleton {α : Type} (f : α → α) (p : α → Bool)
    (h : ∀ a, p (f a) = p a) (l : List α) (a : α)
    (hl : l.filter p = [a]) : (l.map f).filter p = [f a] := by
  rw [filter_map_comm f p h, hl]
  rfl

/-- The insert branch of the preferences upsert: when no row matches the
`user_id`, the handler appends a fresh row (with empty-list defaults and
no `last_visit`), which is then the unique row for that `user_id`. -/
lemma upsert_insert_case (s : Store) (body : PrefBody) (now uid : String)
    (hu : body.user_id = some uid) (hne : uid ≠ "")
    (h : s.user_preferences.filter (fun p => p.user_id == uid) = []) :
    (upsertPreferences s body now).2.user_preferences.filter
        (fun p => p.user_id == uid) =
      [{ user_id := uid,
         favorite_categories := body.favorite_categories.getD [],
         viewed_articles := body.viewed_articles.getD [],
         last_visit := none }] := by
  have htu : truthyStr (some uid) = true := by
    simp [truthyStr, hne]
  simp only [upsertPreferences, hu, Option.getD_some, htu, Bool.not_true,
    Bool.false_eq_true, if_false]
  rw [h]
  simp only [single?]
  simp [List.filter_append, h]

/-- The update branch of the preferences upsert: when exactly one row
matches the `user_id`, the handler rewrites that row, merging present body
fields over the stored ones and refreshing `last_visit`. -/
lemma upsert_update_case (s : Store) (body : PrefBody) (now uid : String)
    (r : UserPref) (hu : body.user_id = some uid) (hne : uid ≠ "")
    (h : s.user_preferences.filter (fun p => p.user_id == uid) = [r]) :
    (upsertPreferences s body now).2.user_preferences.filter
        (fun p => p.user_id == uid) =
      [{ r with
          favorite_categories :=
            body.favorite_categories.getD r.favorite_categories,
          viewed_articles := body.viewed_articles.getD r.viewed_articles,
          last_visit := some now }] := by
  have hpr : (r.user_id == uid) = true := by
    have hm : r ∈ s.user_preferences.filter (fun p => p.user_id == uid) := by
      rw [h]
      exact List.mem_singleton_self r
    exact (List.mem_filter.mp hm).2
  have htu : truthyStr (some uid) = true := by
    simp [truthyStr, hne]
  simp only [upsertPreferences, hu, Option.getD_some, htu, Bool.not_true,
    Bool.false_eq_true, if_false]
  rw [h]
  simp only [single?]
  refine (filter_update_singleton _ _ ?_ _ _ h).trans ?_
  · intro x
    by_cases hx : (x.user_id == uid) = true
    · simp [hx]
    · simp [hx]
  · simp [hpr]

/-! ### Claim theorems -/

/-- C2: a `POST /api/comments` request whose body lacks the `text` field is
answered with HTTP 400 and leaves the store completely unchanged: no
comment is inserted and no article is updated. -/
theorem postComment_missing_text_400 (s : Store) (body : CommentBody)
    (h : body.text = none) : postComment s body = (400, s) := by
  simp [postComment, h, truthyStr]

/-- Witness for C2 at a concrete request (`article_id` present, `text`
missing) against the empty store. -/
theorem postComment_missing_text_400_witness :
    (CommentBody.mk (some "a1") none none none).text = none ∧
    postComment (Store.mk [] [] []) (CommentBody.mk (some "a1") none none none) =
      (400, Store.mk [] [] []) :=
  ⟨rfl, postComment_missing_text_400 _ _ rfl⟩

/-- C8: a `POST /api/comments` request that supplies a non-empty
`article_id` and `text` but omits `user_name` and `user_avatar` stores a
comment whose `user_name` is `"匿名"` and whose `user_avatar` is `"😊"`. -/
theorem postComment_anonymous_defaults (s : Store) (body : CommentBody)
    (aid tx : String) (haid : body.article_id = some aid) (hane : aid ≠ "")
    (htx : body.text = some tx) (htne : tx ≠ "")
    (hun : body.user_name = none) (hua : body.user_avatar = none) :
    (postComment s body).2.comments =
      s.comments ++
        [{ article_id := aid, user_name := "匿名", user_avatar := "😊",
           text := tx }] := by
  simp [postComment, truthyStr, jsOrStr, haid, htx, hun, hua, hane, htne]

/-- Witness for C8: the spec's own example body
`{article_id: "a1", text: "hi"}` against the empty store. -/
theorem postComment_anonymous_defaults_witness :
    (postComment (Store.mk [] [] [])
        (CommentBody.mk (some "a1") none none (some "hi"))).2.comments =
      ([] : List Comment) ++
        [{ article_id := "a1", user_name := "匿名", user_avatar := "😊",
           text := "hi" }] :=
  postComment_anonymous_defaults _ _ "a1" "hi" rfl (by decide) rfl (by decide)
    rfl rfl

/-- C1: a valid `POST /api/comments` (non-empty `article_id` and `text`),
in a single-writer scenario where the store holds exactly one article with
the target id, leaves that article's `comment_count` equal to the value
read before the request plus 1, a missing/null prior value being treated
as 0. -/
theorem postComment_increments_comment_count (s : Store) (body : CommentBody)
    (aid : String) (a : Article)
    (haid : body.article_id = some aid) (hane : aid ≠ "")
    (htx : truthyStr body.text = true)
    (hart : s.articles.filter (fun x => x.id == aid) = [a]) :
    (postComment s body).2.articles.filter (fun x => x.id == aid) =
      [{ a with comment_count := some (a.comment_count.getD 0 + 1) }] := by
  have hpa : (a.id == aid) = true := by
    have hm : a ∈ s.articles.filter (fun x => x.id == aid) := by
      rw [hart]; exact List.mem_singleton_self a
    exact (List.mem_filter.mp hm).2
  have hcond : (!truthyStr body.article_id || !truthyStr body.text) = false := by
    rw [htx, haid]
    simp [truthyStr, hane]
  simp only [postComment, hcond, Bool.false_eq_true, if_false]
  simp only [haid, Option.getD_some]
  rw [hart]
  refine (filter_update_singleton _ _ ?_ _ _ hart).trans ?_
  · intro x
    by_cases hx : (x.id == aid) = true
    · simp [hx]
    · simp [hx]
  · simp [hpa, single?]

/-- Witness for C1: posting to article `"a1"` whose stored `comment_count`
is null leaves it at `0 + 1 = 1`. -/
theorem postComment_increments_comment_count_witness :
    (postComment (Store.mk [sampleArticle1] [] [])
        (CommentBody.mk (some "a1") (some "Bob") none (some "hi"))).2.articles.filter
        (fun x => x.id == "a1") =
      [{ sampleArticle1 with
          comment_count := some (sampleArticle1.comment_count.getD 0 + 1) }] :=
  postComment_increments_comment_count _ _ "a1" sampleArticle1 rfl (by decide)
    (by decide) (by decide)

/-- C3: `POST /api/recommendations/articles` with a non-empty
`viewed_articles` list never returns an article whose id is in that list:
every member of the response data has an id outside `viewed_articles`. -/
theorem recommendArticles_excludes_viewed (s : Store) (body : RecommendBody)
    (vs : List String) (hvs : body.viewed_articles = some vs) (hne : vs ≠ [])
    (a : Article) (ha : a ∈ recommendArticles s body) : a.id ∉ vs := by
  simp only [recommendArticles, hvs, Option.getD_some] at ha
  have := (List.mem_filter.mp ha).2
  simpa using this

/-- Witness for C3: recommending against the sample store with
`viewed_articles = ["a1"]` returns `sampleArticle2`, whose id is not in
the viewed list. -/
theorem recommendArticles_excludes_viewed_witness : sampleArticle2.id ∉ ["a1"] :=
  recommendArticles_excludes_viewed sampleStore
    (RecommendBody.mk (some "u1") none (some ["a1"])) ["a1"] rfl (by decide)
    sampleArticle2 (by decide)

/-- C5: `GET /api/articles` with a valid category filter — a category
parameter that is non-empty and not the sentinel `'all'` (both of which
disable the filter) — returns only articles whose `category` equals the
parameter. -/
theorem listArticles_category_filter (s : Store) (q : ArticlesQuery)
    (cat : String) (hc : q.category = some cat) (hne : cat ≠ "")
    (hall : cat ≠ "all") (a : Article) (ha : a ∈ listArticles s q) :
    a.category = cat := by
  have hcond : (truthyStr q.category && !(q.category.getD "" == "all")) = true := by
    rw [hc]
    simp [truthyStr, hne, hall]
  simp only [listArticles, hcond, if_true] at ha
  have h1 : a ∈ orderByPublishedDesc
      (s.articles.filter (fun x => x.category == q.category.getD "")) :=
    List.mem_of_mem_drop (List.mem_of_mem_take ha)
  rw [orderByPublishedDesc, mem_sortByDesc] at h1
  have h2 := (List.mem_filter.mp h1).2
  rw [hc] at h2
  simpa using h2

/-- Witness for C5: listing the sample store with `category=game` returns
`sampleArticle2`, whose category is `"game"`. -/
theorem listArticles_category_filter_witness : sampleArticle2.category = "game" :=
  listArticles_category_filter sampleStore
    (ArticlesQuery.mk (some "game") 20 0) "game" rfl (by decide) (by decide)
    sampleArticle2 (by decide)

/-- C4: upserting preferences twice for the same (non-empty) `user_id`,
starting from a store with at most one row for that user, leaves exactly
one stored row for that `user_id`; the row after the second call is the
row after the first call with `last_visit` refreshed to the second call's
time and each field merged from the second body, falling back to the prior
stored value when omitted. -/
theorem upsertPreferences_twice_single_record (s : Store) (b1 b2 : PrefBody)
    (uid t1 t2 : String) (h1 : b1.user_id = some uid)
    (h2 : b2.user_id = some uid) (hne : uid ≠ "")
    (hinv : (s.user_preferences.filter (fun p => p.user_id == uid)).length ≤ 1) :
    ((upsertPreferences (upsertPreferences s b1 t1).2 b2 t2).2.user_preferences.filter
        (fun p => p.user_id == uid)).length = 1 ∧
    (upsertPreferences (upsertPreferences s b1 t1).2 b2 t2).2.user_preferences.filter
        (fun p => p.user_id == uid) =
      ((upsertPreferences s b1 t1).2.user_preferences.filter
          (fun p => p.user_id == uid)).map
        (fun r1 =>
          { r1 with
            favorite_categories :=
              b2.favorite_categories.getD r1.favorite_categories,
            viewed_articles := b2.viewed_articles.getD r1.viewed_articles,
            last_visit := some t2 }) := by
  rcases hl : s.user_preferences.filter (fun p => p.user_id == uid) with - | ⟨r, rest⟩
  · have hA := upsert_insert_case s b1 t1 uid h1 hne hl
    have hB := upsert_update_case _ b2 t2 uid _ h2 hne hA
    rw [hB, hA]
    simp
  · have hrest : rest = [] := by
      rw [hl] at hinv
      simp only [List.length_cons] at hinv
      exact List.length_eq_zero.mp (by omega)
    subst hrest
    have hA := upsert_update_case s b1 t1 uid r h1 hne hl
    have hB := upsert_update_case _ b2 t2 uid _ h2 hne hA
    rw [hB, hA]
    simp

/-- Witness for C4: two upserts for `"u1"` against the empty store, the
second body omitting `favorite_categories`. -/
theorem upsertPreferences_twice_single_record_witness :
    ((upsertPreferences
        (upsertPreferences (Store.mk [] [] [])
          (PrefBody.mk (some "u1") (some ["anime"]) none) "T1").2
        (PrefBody.mk (some "u1") none (some ["a1"])) "T2").2.user_preferences.filter
        (fun p => p.user_id == "u1")).length = 1 ∧
    (upsertPreferences
        (upsertPreferences (Store.mk [] [] [])
          (PrefBody.mk (some "u1") (some ["anime"]) none) "T1").2
        (PrefBody.mk (some "u1") none (some ["a1"])) "T2").2.user_preferences.filter
        (fun p => p.user_id == "u1") =
      ((upsertPreferences (Store.mk [] [] [])
          (PrefBody.mk (some "u1") (some ["anime"]) none) "T1").2.user_preferences.filter
          (fun p => p.user_id == "u1")).map
        (fun r1 =>
          { r1 with
            favorite_categories :=
              (none : Option (List String)).getD r1.favorite_categories,
            viewed_articles := (some ["a1"]).getD r1.viewed_articles,
            last_visit := some "T2" }) :=
  upsertPreferences_twice_single_record (Store.mk [] [] [])
    (PrefBody.mk (some "u1") (some ["anime"]) none)
    (PrefBody.mk (some "u1") none (some ["a1"])) "u1" "T1" "T2" rfl rfl
    (by decide) (by decide)

/-- C10: upserting preferences for a `user_id` with no existing row takes
the insert path, and the freshly created row has no `last_visit` value
(only the update path sets `last_visit`). -/
theorem upsert_new_user_no_last_visit (s : Store) (body : PrefBody)
    (now uid : String) (hu : body.user_id = some uid) (hne : uid ≠ "")
    (h : s.user_preferences.filter (fun p => p.user_id == uid) = []) :
    (upsertPreferences s body now).2.user_preferences.filter
        (fun p => p.user_id == uid) =
      [{ user_id := uid,
         favorite_categories := body.favorite_categories.getD [],
         viewed_articles := body.viewed_articles.getD [],
         last_visit := none }] :=
  upsert_insert_case s body now uid hu hne h

/-- Witness for C10: a first-time upsert for `"u1"` against the empty
store stores a row with `last_visit = none`. -/
theorem upsert_new_user_no_last_visit_witness :
    (upsertPreferences (Store.mk [] [] [])
        (PrefBody.mk (some "u1") (some ["anime"]) none) "T1").2.user_preferences.filter
        (fun p => p.user_id == "u1") =
      [{ user_id := "u1", favorite_categories := ["anime"],
         viewed_articles := [], last_visit := none }] :=
  upsert_new_user_no_last_visit (Store.mk [] [] [])
    (PrefBody.mk (some "u1") (some ["anime"]) none) "T1" "u1" rfl (by decide)
    rfl

/-- C6: the Article Synthesizer marks an article `is_fire` exactly when
the comment list it was given has more than 50 entries. -/
theorem createArticleFromVideo_is_fire_iff (video : Video)
    (comments : List YTComment) (category : String) (randReaction randView : Nat)
    (now : String) :
    (createArticleFromVideo video comments category randReaction randView
        now).is_fire = true ↔ 50 < comments.length := by
  simp [createArticleFromVideo]

/-- C7: the two video-platform client functions fail soft: on a transport
error or an API-reported error they return the empty list instead of
propagating the failure (as total Lean functions they cannot throw at
all). -/
theorem clients_fail_soft (msg : String) :
    searchTrendingVideos (FetchResult.transportError msg) = [] ∧
    searchTrendingVideos (FetchResult.apiError msg) = [] ∧
    getVideoComments (FetchResult.transportError msg) = [] ∧
    getVideoComments (FetchResult.apiError msg) = [] :=
  ⟨rfl, rfl, rfl, rfl⟩

/-- C9: the Ingestion Job requests comments with `maxResults = 20`, so —
the platform honouring that bound — the comment list handed to the
synthesizer has at most 20 entries and every created article has
`is_fire = false` (20 can never exceed the threshold of 50). -/
theorem ingestVideo_never_fire (video : Video)
    (commentsResp : FetchResult YTComment) (category : String)
    (randReaction randView : Nat) (now : String)
    (h : honorsMaxResults commentsResp mainCommentMaxResults) :
    (ingestVideo video commentsResp category randReaction randView
        now).is_fire = false := by
  have hlen : (getVideoComments commentsResp).length ≤ 20 := by
    cases commentsResp with
    | transportError m => simp [getVideoComments]
    | apiError m => simp [getVideoComments]
    | success items =>
      cases items with
      | none => simp [getVideoComments]
      | some l =>
        simpa [getVideoComments, mainCommentMaxResults] using h l rfl
  simp only [ingestVideo, createArticleFromVideo, decide_eq_false_iff_not,
    not_lt]
  omega

/-- Witness for C9: a successful comment fetch carrying a single comment
yields an article with `is_fire = false`. -/
theorem ingestVideo_never_fire_witness :
    (ingestVideo sampleVideo
        (FetchResult.success (some [YTComment.mk "最高" "alice"])) "anime"
        700 5000 "T1").is_fire = false :=
  ingestVideo_never_fire sampleVideo
    (FetchResult.success (some [YTComment.mk "最高" "alice"])) "anime" 700
    5000 "T1"
    (by
      intro items hh
      injection hh with h1
      injection h1 with h2
      rw [← h2]
      decide)

end OtakuNews
